import Mathlib

/-
Verification development for the Spitogatos listing-enrichment webhook
(src/app.py).  The pure parts of the program are embedded directly:
the challenge detector, the numeric normalizer, the regex-based field
extractor, the message formatter, the TTL dedup store, the SHA-256 URL
fingerprint and the webhook orchestration.  The two external
collaborators (the Playwright page renderer and the Telegram delivery
call) are modelled as oracle parameters describing their observable
outcome, exactly as the webhook consumes them.
-/

set_option maxRecDepth 10000

namespace Annonces

/- ---------------------------------------------------------------
Character classes.  Python `re` is used by the source with Unicode
semantics; the embedding models the character classes over the
character ranges this program actually exercises (ASCII, Latin-1
supplement, Greek), as noted on each definition.
---------------------------------------------------------------- -/

/-- Model of `str.lower` (and of `(?i)` literal comparison) over the ASCII
and Greek ranges appearing in the source patterns and marker strings. -/
def charLower (c : Char) : Char :=
  let n := c.toNat
  if 65 ≤ n ∧ n ≤ 90 then Char.ofNat (n + 32)
  else if 913 ≤ n ∧ n ≤ 939 ∧ n ≠ 930 then Char.ofNat (n + 32)
  else if n = 902 then Char.ofNat 940
  else if n = 904 then Char.ofNat 941
  else if n = 905 then Char.ofNat 942
  else if n = 906 then Char.ofNat 943
  else if n = 908 then Char.ofNat 972
  else if n = 910 then Char.ofNat 973
  else if n = 911 then Char.ofNat 974
  else c

/-- Model of `str.lower` on whole strings. -/
def strLower (s : String) : String :=
  String.mk (s.data.map charLower)

/-- Model of the `\s` class of Python `re` (space, tab, newline, carriage
return, vertical tab, form feed, and the no-break space U+00A0, which is
the only non-ASCII whitespace the spec and source exercise). -/
def isSpaceP (c : Char) : Bool :=
  c = ' ' || c = '\t' || c = '\n' || c = '\r' ||
  c.toNat = 11 || c.toNat = 12 || c.toNat = 160

/-- Model of the `\w` word-character test used by `\b` in Python `re`:
alphanumerics and underscore.  Covers ASCII, the superscript digits of
Latin-1 (U+00B2 is a word character in Python because it is numeric;
this matters for the pattern ending in `m²\b`), and the Greek block. -/
def isWordChar (c : Char) : Bool :=
  c.isAlphanum || c = '_' ||
  c.toNat = 178 || c.toNat = 179 || c.toNat = 185 ||
  (880 ≤ c.toNat && c.toNat ≤ 1023)

/- ---------------------------------------------------------------
looks_like_challenge (src/app.py lines 62-71).
---------------------------------------------------------------- -/

/-- Decides whether `pre` is an initial segment of `l`. -/
def headMatches : List Char → List Char → Bool
  | [], _ => true
  | _ :: _, [] => false
  | a :: as, b :: bs => a = b && headMatches as bs

/-- Decides whether `n` occurs as a contiguous sublist of `h`
(the Python `in` substring test). -/
def subList (n : List Char) : List Char → Bool
  | [] => headMatches n []
  | c :: rest => headMatches n (c :: rest) || subList n rest

/-- The fixed marker list of `looks_like_challenge`. -/
def challenge_markers : List String :=
  [("captcha"), ("cf-challenge"), ("cloudflare"),
   ("checking your browser"), ("/cdn-cgi/"), ("turnstile")]

/-- Embedding of `looks_like_challenge`: lower-case the markup and test
each marker for substring containment. -/
def looks_like_challenge (html : String) : Bool :=
  challenge_markers.any (fun s => subList s.data (strLower html).data)

/- ---------------------------------------------------------------
clean_int (src/app.py lines 74-80).
---------------------------------------------------------------- -/

/-- Decimal value of a list of ASCII digit characters. -/
def natOfDigits (ds : List Char) : Nat :=
  ds.foldl (fun n c => 10 * n + (c.toNat - 48)) 0

/-- Embedding of `clean_int`: an empty string is rejected up front
(`if not s`); otherwise every non-digit character is stripped
(`re.sub` with the digit class; the earlier U+00A0 replacement and strip
only remove non-digits and are subsumed) and the remainder is parsed as
a decimal integer, with an all-stripped string yielding absence. -/
def clean_int (s : String) : Option Nat :=
  if s.data = [] then none
  else
    let ds := s.data.filter Char.isDigit
    if ds = [] then none else some (natOfDigits ds)

/- ---------------------------------------------------------------
A small regular-expression engine with Python `re` backtracking
semantics (leftmost match; greedy quantifiers; ordered alternation;
numbered capture groups), sufficient for the five patterns of
extract_fields.  Literal comparison is case-insensitive, because every
source pattern carries the `(?i)` flag.
---------------------------------------------------------------- -/

/-- Regex abstract syntax: character class, case-insensitive literal,
concatenation, ordered alternation, greedy star, greedy bounded
repetition `\x7blo,hi\x7d`, word boundary `\b`, numbered capture group. -/
inductive RE where
  | chcls (p : Char → Bool) : RE
  | lit (s : List Char) : RE
  | seq (a b : RE) : RE
  | alt (a b : RE) : RE
  | star (a : RE) : RE
  | rep (lo hi : Nat) (a : RE) : RE
  | wordB : RE
  | grp (n : Nat) (a : RE) : RE

/-- Matcher state: the previously consumed character (for `\b`), the
remaining input, and the captures recorded so far (newest first). -/
structure MCtx where
  prev : Option Char
  rest : List Char
  caps : List (Nat × List Char)

/-- Consume a literal, comparing case-insensitively (the `(?i)` flag). -/
def matchLit : List Char → MCtx → List MCtx
  | [], ctx => [ctx]
  | c :: cs, ctx =>
    match ctx.rest with
    | [] => []
    | d :: rest =>
      if charLower c = charLower d then matchLit cs ⟨some d, rest, ctx.caps⟩ else []

/-- Greedy bounded repetition of a sub-matcher: try `lo` to `hi`
occurrences, longest first, in Python priority order. -/
def runTimes (m : MCtx → List MCtx) : Nat → Nat → MCtx → List MCtx
  | lo, 0, ctx => if lo = 0 then [ctx] else []
  | lo, h + 1, ctx =>
    (m ctx).flatMap (fun ctx2 => runTimes m (lo - 1) h ctx2)
      ++ (if lo = 0 then [ctx] else [])

/-- Greedy star of a sub-matcher, longest first.  `fuel` bounds the
iteration count; only iterations that consume input are continued, so
starting it at the remaining input length is exact. -/
def runStarF (m : MCtx → List MCtx) : Nat → MCtx → List MCtx
  | 0, ctx => [ctx]
  | f + 1, ctx =>
    (m ctx).flatMap (fun ctx2 =>
      if ctx2.rest.length < ctx.rest.length then runStarF m f ctx2 else [])
      ++ [ctx]

/-- Backtracking matcher.  Returns the list of possible successor states
in Python priority order (the head is the match `re.search` keeps once
a start position succeeds). -/
def runRE : RE → MCtx → List MCtx
  | .chcls p, ctx =>
    (match ctx.rest with
      | [] => []
      | c :: rest => if p c then [⟨some c, rest, ctx.caps⟩] else [])
  | .lit s, ctx => matchLit s ctx
  | .seq a b, ctx => (runRE a ctx).flatMap (fun ctx2 => runRE b ctx2)
  | .alt a b, ctx => runRE a ctx ++ runRE b ctx
  | .star a, ctx => runStarF (fun ctx2 => runRE a ctx2) ctx.rest.length ctx
  | .rep lo hi a, ctx => runTimes (fun ctx2 => runRE a ctx2) lo hi ctx
  | .wordB, ctx =>
    (let before := match ctx.prev with
      | none => false
      | some c => isWordChar c
    let after := match ctx.rest with
      | [] => false
      | c :: _ => isWordChar c
    if before ≠ after then [ctx] else [])
  | .grp n a, ctx =>
    (runRE a ctx).map (fun ctx2 =>
      ⟨ctx2.prev, ctx2.rest,
       (n, ctx.rest.take (ctx.rest.length - ctx2.rest.length)) :: ctx2.caps⟩)

/-- `re.search`: try the pattern at each start position from the left and
return the first (highest-priority) match. -/
def searchFrom (re : RE) (prev : Option Char) (s : List Char) : Option MCtx :=
  match runRE re ⟨prev, s, []⟩ with
  | m :: _ => some m
  | [] =>
    match s with
    | [] => none
    | c :: rest => searchFrom re (some c) rest

/-- Text captured by group `n` (empty if the group is absent). -/
def capGet (m : MCtx) (n : Nat) : List Char :=
  ((m.caps.find? (fun p => p.1 == n)).map Prod.snd).getD []

/-- Highest group number recorded in a match. -/
def capMaxIdx (caps : List (Nat × List Char)) : Nat :=
  caps.foldl (fun a p => max a p.1) 0

/-- Text captured by the highest-numbered group: `m.groups()[-1]`. -/
def capLast (m : MCtx) : List Char :=
  capGet m (capMaxIdx m.caps)

/- ---------------------------------------------------------------
The source patterns of extract_fields (src/app.py lines 89-113).
---------------------------------------------------------------- -/

/-- The class `[0-9]`. -/
def digitC : RE := .chcls (fun c => c.isDigit)

/-- The class `[^0-9]`. -/
def nonDigitC : RE := .chcls (fun c => !c.isDigit)

/-- The class `[.,\s]` (thousands separators). -/
def sepC : RE := .chcls (fun c => c = '.' || c = ',' || isSpaceP c)

/-- The class `\s`. -/
def spaceC : RE := .chcls isSpaceP

/-- Literal regex from a string. -/
def litS (s : String) : RE := .lit s.data

/-- The number pattern `[0-9]\x7b1,3\x7d(?:[.,\s][0-9]\x7b3\x7d)*`:
one to three digits, then separator-delimited groups of exactly three. -/
def numRE : RE := .seq (.rep 1 3 digitC) (.star (.seq sepC (.rep 3 3 digitC)))

/-- Land pattern 1: `\b(plot|land)\s*area\b[^0-9]\x7b0,80\x7d(number)`. -/
def landRE1 : RE :=
  .seq .wordB (.seq (.grp 1 (.alt (litS ("plot")) (litS ("land"))))
    (.seq (.star spaceC) (.seq (litS ("area")) (.seq .wordB
      (.seq (.rep 0 80 nonDigitC) (.grp 2 numRE))))))

/-- Land pattern 2: `\blot\s*size\b[^0-9]\x7b0,80\x7d(number)`;
the number is its only (hence last) group. -/
def landRE2 : RE :=
  .seq .wordB (.seq (litS ("lot")) (.seq (.star spaceC) (.seq (litS ("size"))
    (.seq .wordB (.seq (.rep 0 80 nonDigitC) (.grp 1 numRE))))))

/-- Land pattern 3: the four Greek label alternatives, then
`[^0-9]\x7b0,120\x7d(number)`. -/
def landRE3 : RE :=
  .seq (.grp 1 (.alt
      (.seq (litS ("Εμβαδόν")) (.seq (.star spaceC) (litS ("οικοπέδου"))))
      (.alt (litS ("Εμβαδόν")) (.alt (litS ("οικόπεδο")) (litS ("οικοπέδου"))))))
    (.seq (.rep 0 120 nonDigitC) (.grp 2 numRE))

/-- The ordered land pattern list of `extract_fields`. -/
def land_patterns : List RE := [landRE1, landRE2, landRE3]

/-- The price pattern `(€|eur)\s*(number)`. -/
def priceRE : RE :=
  .seq (.grp 1 (.alt (litS ("€")) (litS ("eur")))) (.seq (.star spaceC) (.grp 2 numRE))

/-- The living-area pattern `\b(number)\s*m²\b`. -/
def areaRE : RE :=
  .seq .wordB (.seq (.grp 1 numRE) (.seq (.star spaceC) (.seq (litS ("m²")) .wordB)))

/- ---------------------------------------------------------------
extract_fields (src/app.py lines 83-119).
---------------------------------------------------------------- -/

/-- The record returned by `extract_fields`. -/
structure ExtractedFields where
  land_m2 : Option Nat
  price_eur : Option Nat
  area_m2 : Option Nat
deriving DecidableEq, Repr

/-- The land loop of `extract_fields`: try each pattern in order, parse
the last group of the first match, and stop as soon as the parsed value
is truthy (present and nonzero — Python `if land_m2: break`); a falsy
parse keeps the assigned value but lets later patterns overwrite it. -/
def landLoop (pats : List RE) (text : List Char) (acc : Option Nat) : Option Nat :=
  match pats with
  | [] => acc
  | p :: ps =>
    match searchFrom p none text with
    | none => landLoop ps text acc
    | some m =>
      let v := clean_int (String.mk (capLast m))
      match v with
      | some k => if k ≠ 0 then v else landLoop ps text v
      | none => landLoop ps text v

/-- Land-area extraction: the pattern loop over `land_patterns`. -/
def landExtract (text : String) : Option Nat :=
  landLoop land_patterns text.data none

/-- Price extraction: a single search, group 2. -/
def priceExtract (text : String) : Option Nat :=
  match searchFrom priceRE none text.data with
  | some m => clean_int (String.mk (capGet m 2))
  | none => none

/-- Living-area extraction: a single search, group 1. -/
def areaExtract (text : String) : Option Nat :=
  match searchFrom areaRE none text.data with
  | some m => clean_int (String.mk (capGet m 1))
  | none => none

/-- Embedding of `extract_fields`: the three fields are produced by three
independent searches over the same text. -/
def extract_fields (text : String) : ExtractedFields :=
  { land_m2 := landExtract text
    price_eur := priceExtract text
    area_m2 := areaExtract text }

/- ---------------------------------------------------------------
format_message (src/app.py lines 138-151).
---------------------------------------------------------------- -/

/-- Model of `"\n".join`. -/
def joinNL : List String → String
  | [] => ("")
  | [a] => a
  | a :: b :: rest => a ++ ("\n") ++ joinNL (b :: rest)

/-- Embedding of `format_message`: a fixed header, one line per present
field in the order land, price, living area, then the URL. -/
def format_message (url : String) (fields : ExtractedFields) : String :=
  let parts := [("Nouvelle annonce qualifiee")]
  let parts := match fields.land_m2 with
    | some land => parts ++ [("Terrain: ") ++ toString land ++ (" m²")]
    | none => parts
  let parts := match fields.price_eur with
    | some price => parts ++ [("Prix: ") ++ toString price ++ (" EUR")]
    | none => parts
  let parts := match fields.area_m2 with
    | some area => parts ++ [("Surface: ") ++ toString area ++ (" m²")]
    | none => parts
  joinNL (parts ++ [url])

/- ---------------------------------------------------------------
dedup_key (src/app.py lines 51-52): the SHA-256 hex digest of the
UTF-8 encoded URL.  SHA-256 is implemented here from FIPS 180-4 over
Nat with explicit reduction modulo 2^32.
---------------------------------------------------------------- -/

/-- UTF-8 encoding of one character, as byte values. -/
def utf8Char (c : Char) : List Nat :=
  let n := c.toNat
  if n < 128 then [n]
  else if n < 2048 then [192 + n / 64, 128 + n % 64]
  else if n < 65536 then [224 + n / 4096, 128 + (n / 64) % 64, 128 + n % 64]
  else [240 + n / 262144, 128 + (n / 4096) % 64, 128 + (n / 64) % 64, 128 + n % 64]

/-- UTF-8 encoding of a string (`url.encode("utf-8")`). -/
def utf8Bytes (s : String) : List Nat :=
  s.data.flatMap utf8Char

/-- Reduction to a 32-bit word. -/
def w32 (n : Nat) : Nat := n % 4294967296

/-- 32-bit modular addition. -/
def wadd (a b : Nat) : Nat := w32 (a + b)

/-- 32-bit right rotation. -/
def rotr (n x : Nat) : Nat := w32 ((x >>> n) ||| (x <<< (32 - n)))

/-- The SHA-256 round constants of FIPS 180-4, written in decimal. -/
def shaK : List Nat :=
  [1116352408, 1899447441, 3049323471, 3921009573, 961987163,
   1508970993, 2453635748, 2870763221, 3624381080, 310598401,
   607225278, 1426881987, 1925078388, 2162078206, 2614888103,
   3248222580, 3835390401, 4022224774, 264347078, 604807628,
   770255983, 1249150122, 1555081692, 1996064986, 2554220882,
   2821834349, 2952996808, 3210313671, 3336571891, 3584528711,
   113926993, 338241895, 666307205, 773529912, 1294757372,
   1396182291, 1695183700, 1986661051, 2177026350, 2456956037,
   2730485921, 2820302411, 3259730800, 3345764771, 3516065817,
   3600352804, 4094571909, 275423344, 430227734, 506948616,
   659060556, 883997877, 958139571, 1322822218, 1537002063,
   1747873779, 1955562222, 2024104815, 2227730452, 2361852424,
   2428436474, 2756734187, 3204031479, 3329325298]

/-- The SHA-256 initial hash value of FIPS 180-4, written in decimal. -/
def shaH0 : List Nat :=
  [1779033703, 3144134277, 1013904242, 2773480762,
   1359893119, 2600822924, 528734635, 1541459225]

/-- Big-endian byte expansion of `x` to `n` bytes. -/
def beBytes (n x : Nat) : List Nat :=
  (List.range n).map (fun i => (x >>> (8 * (n - 1 - i))) % 256)

/-- FIPS 180-4 message padding: a 0x80 byte, zeros to 56 mod 64, then the
64-bit big-endian bit length. -/
def sha256pad (msg : List Nat) : List Nat :=
  let L := msg.length
  let k := (119 - (L % 64)) % 64
  msg ++ [128] ++ List.replicate k 0 ++ beBytes 8 (8 * L)

/-- Big-endian 32-bit words from a byte list. -/
def bytesToWords : List Nat → List Nat
  | b0 :: b1 :: b2 :: b3 :: rest => (((b0 * 256 + b1) * 256 + b2) * 256 + b3) :: bytesToWords rest
  | _ => []

/-- Split a word list into 16-word blocks. -/
def chunks16 : List Nat → List (List Nat)
  | [] => []
  | w :: ws => (w :: ws).take 16 :: chunks16 ((w :: ws).drop 16)
termination_by l => l.length
decreasing_by simp; omega

/-- One message-schedule word from the previous words (newest first). -/
def schedStep (recent : List Nat) : Nat :=
  let g := fun (i : Nat) => recent.getD i 0
  let s0 := (rotr 7 (g 14)) ^^^ (rotr 18 (g 14)) ^^^ ((g 14) >>> 3)
  let s1 := (rotr 17 (g 1)) ^^^ (rotr 19 (g 1)) ^^^ ((g 1) >>> 10)
  wadd (wadd (g 15) s0) (wadd (g 6) s1)

/-- Extend the (reversed) schedule by `n` words. -/
def schedExt : List Nat → Nat → List Nat
  | acc, 0 => acc
  | acc, n + 1 => schedExt (schedStep acc :: acc) n

/-- The 64-word message schedule of a 16-word block. -/
def schedule (block : List Nat) : List Nat :=
  (schedExt block.reverse 48).reverse

/-- One SHA-256 compression round on the working state `[a,b,c,d,e,f,g,h]`. -/
def compressStep (st : List Nat) (kw : Nat × Nat) : List Nat :=
  match st with
  | [a, b, c, d, e, f, g, h] =>
    let S1 := (rotr 6 e) ^^^ (rotr 11 e) ^^^ (rotr 25 e)
    let ch := (e &&& f) ^^^ ((e ^^^ 0xffffffff) &&& g)
    let t1 := wadd h (wadd S1 (wadd ch (wadd kw.1 kw.2)))
    let S0 := (rotr 2 a) ^^^ (rotr 13 a) ^^^ (rotr 22 a)
    let mj := (a &&& b) ^^^ (a &&& c) ^^^ (b &&& c)
    let t2 := wadd S0 mj
    [wadd t1 t2, a, b, c, wadd d t1, e, f, g]
  | other => other

/-- Process one block: 64 rounds, then add the result into the state. -/
def sha256Block (h : List Nat) (block : List Nat) : List Nat :=
  let st := (shaK.zip (schedule block)).foldl compressStep h
  (h.zip st).map (fun p => wadd p.1 p.2)

/-- The SHA-256 digest of a byte list, as eight 32-bit words. -/
def sha256Words (msg : List Nat) : List Nat :=
  (chunks16 (bytesToWords (sha256pad msg))).foldl sha256Block shaH0

/-- Lower-case hex digit. -/
def hexDigit (n : Nat) : Char :=
  if n < 10 then Char.ofNat (48 + n) else Char.ofNat (87 + n)

/-- Eight-hex-digit rendering of a 32-bit word. -/
def hexWord (x : Nat) : List Char :=
  (List.range 8).map (fun i => hexDigit ((x >>> (4 * (7 - i))) % 16))

/-- Embedding of `dedup_key`: the lower-case SHA-256 hex digest of the
UTF-8 encoded URL. -/
def dedup_key (url : String) : String :=
  String.mk ((sha256Words (utf8Bytes url)).flatMap hexWord)

/- ---------------------------------------------------------------
The dedup store (src/app.py lines 38, 55-59): the module dict `_seen`,
modelled as an insertion-ordered association list with unique keys in
all reachable states.  Timestamps are whole seconds as Int (the claims
and spec speak in whole seconds; `time.time()` returns these values at
second granularity).
---------------------------------------------------------------- -/

/-- The `_seen` store. -/
abbrev Seen := List (String × Int)

/-- First-match lookup (Python dict lookup; reachable stores have unique
keys). -/
def seenLookup (s : Seen) (k : String) : Option Int :=
  match s with
  | [] => none
  | (k2, v) :: rest => if k2 = k then some v else seenLookup rest k

/-- Embedding of `gc_seen` at clock `t`: drop every entry whose age
strictly exceeds the TTL, keeping order (collecting the expired keys
and popping them leaves exactly the non-expired entries in order). -/
def gc_seen (ttl t : Int) (s : Seen) : Seen :=
  s.filter (fun kv => !(decide (t - kv.2 > ttl)))

/- ---------------------------------------------------------------
The webhook orchestration (src/app.py lines 224-262).
---------------------------------------------------------------- -/

/-- Configuration read from the environment (defaults
`MIN_LAND_M2 = 0`, `DEDUP_TTL_SECONDS = 86400`). -/
structure Config where
  MIN_LAND_M2 : Nat
  DEDUP_TTL_SECONDS : Int
deriving DecidableEq, Repr

/-- The environment defaults of the source. -/
def defaultConfig : Config :=
  { MIN_LAND_M2 := 0, DEDUP_TTL_SECONDS := 86400 }

/-- Observable outcome of `fetch_page_text` (the external Playwright
renderer): a navigation timeout, any other browser fault, or the
rendered page as (html, visible text). -/
inductive FetchResult where
  | timeout : FetchResult
  | error (msg : String) : FetchResult
  | ok (html text : String) : FetchResult
deriving DecidableEq, Repr

/-- Observable outcome of `telegram_send` (the external delivery call). -/
inductive SendResult where
  | ok : SendResult
  | fail (msg : String) : SendResult
deriving DecidableEq, Repr

/-- The response of the webhook: a JSON body carrying a `status` plus
optional url / land_m2 / fields, or an HTTPException with a code and
detail string. -/
inductive WebhookResponse where
  | body (status : String) (url : Option String) (land_m2 : Option Nat)
      (fields : Option ExtractedFields) : WebhookResponse
  | httpError (code : Nat) (detail : String) : WebhookResponse
deriving DecidableEq, Repr

/-- The part of the webhook after the dedup gate (src/app.py lines
235-262); it never touches the store.  Returns the response and the
message passed to `telegram_send` when delivery was attempted. -/
def processFetched (cfg : Config) (url : String) (fetch : FetchResult)
    (send : SendResult) : WebhookResponse × Option String :=
  match fetch with
  | .timeout => (.httpError 504 ("Timeout loading page"), none)
  | .error e => (.httpError 502 (("Browser error: ") ++ e), none)
  | .ok html text =>
    if looks_like_challenge html then
      (.httpError 403 ("Blocked by challenge/CAPTCHA"), none)
    else
      let fields := extract_fields text
      match fields.land_m2 with
      | none => (.body ("no_land_field") (some url) none (some fields), none)
      | some land_m2 =>
        if cfg.MIN_LAND_M2 ≠ 0 ∧ land_m2 < cfg.MIN_LAND_M2 then
          (.body ("filtered_out") (some url) (some land_m2) none, none)
        else
          let msg := format_message url fields
          match send with
          | .fail e => (.httpError 502 (("Telegram send failed: ") ++ e), some msg)
          | .ok => (.body ("posted") (some url) (some land_m2) (some fields), some msg)

/-- Embedding of the webhook handler at clock `t`: sweep the store, then
the dedup gate (returning `dedup_skipped` on a hit, leaving the store as
the sweep left it), otherwise mark the URL seen at `t` and run the rest
of the pipeline.  Returns (response, store after, attempted message). -/
def webhook (cfg : Config) (t : Int) (fetch : FetchResult) (send : SendResult)
    (seen : Seen) (url : String) : WebhookResponse × Seen × Option String :=
  let seen1 := gc_seen cfg.DEDUP_TTL_SECONDS t seen
  let key := dedup_key url
  if (seenLookup seen1 key).isSome then
    (.body ("dedup_skipped") none none none, seen1, none)
  else
    let p := processFetched cfg url fetch send
    (p.1, seen1 ++ [(key, t)], p.2)

/- ---------------------------------------------------------------
Store lemmas.
---------------------------------------------------------------- -/

theorem seenLookup_eq_none (s : Seen) (k : String) :
    seenLookup s k = none ↔ ∀ v : Int, (k, v) ∉ s := by
  induction s with
  | nil => simp [seenLookup]
  | cons kv rest ih =>
    obtain ⟨k2, v2⟩ := kv
    simp only [seenLookup]
    by_cases h : k2 = k
    · subst h
      rw [if_pos rfl]
      constructor
      · intro hc
        exact (Option.some_ne_none v2 hc).elim
      · intro hall
        exact ((hall v2) (List.mem_cons_self _ _)).elim
    · rw [if_neg h, ih]
      constructor
      · intro hall v hv
        rcases List.mem_cons.mp hv with heq | hm
        · exact (h (congrArg Prod.fst heq).symm).elim
        · exact hall v hm
      · intro hall v hv
        exact hall v (List.mem_cons_of_mem _ hv)

theorem seenLookup_gc_none (ttl t : Int) (s : Seen) (k : String)
    (h : seenLookup s k = none) : seenLookup (gc_seen ttl t s) k = none := by
  induction s with
  | nil => simp [gc_seen, seenLookup]
  | cons kv rest ih =>
    obtain ⟨k2, v2⟩ := kv
    by_cases hk : k2 = k
    · subst hk
      simp [seenLookup] at h
    · simp [seenLookup, hk] at h
      simp only [gc_seen, List.filter_cons]
      by_cases hp : t - v2 > ttl
      · simp [hp]
        exact ih h
      · simp [hp, seenLookup, hk]
        exact ih h

theorem seenLookup_append (s r : Seen) (k : String)
    (h : seenLookup s k = none) : seenLookup (s ++ r) k = seenLookup r k := by
  induction s with
  | nil => simp
  | cons kv rest ih =>
    obtain ⟨k2, v2⟩ := kv
    by_cases hk : k2 = k
    · subst hk
      simp [seenLookup] at h
    · simp [seenLookup, hk] at h ⊢
      exact ih h

theorem mem_gc_seen (ttl t : Int) (s : Seen) (k : String) (v : Int) :
    (k, v) ∈ gc_seen ttl t s ↔ (k, v) ∈ s ∧ ¬(t - v > ttl) := by
  simp [gc_seen, List.mem_filter]

theorem gc_seen_append (ttl t : Int) (s r : Seen) :
    gc_seen ttl t (s ++ r) = gc_seen ttl t s ++ gc_seen ttl t r := by
  simp [gc_seen, List.filter_append]

theorem webhook_miss (cfg : Config) (t : Int) (fetch : FetchResult)
    (send : SendResult) (seen : Seen) (url : String)
    (h : seenLookup (gc_seen cfg.DEDUP_TTL_SECONDS t seen) (dedup_key url) = none) :
    webhook cfg t fetch send seen url =
      ((processFetched cfg url fetch send).1,
       gc_seen cfg.DEDUP_TTL_SECONDS t seen ++ [(dedup_key url, t)],
       (processFetched cfg url fetch send).2) := by
  simp [webhook, h]

theorem webhook_hit (cfg : Config) (t : Int) (fetch : FetchResult)
    (send : SendResult) (seen : Seen) (url : String) (v : Int)
    (h : seenLookup (gc_seen cfg.DEDUP_TTL_SECONDS t seen) (dedup_key url) = some v) :
    webhook cfg t fetch send seen url =
      (.body ("dedup_skipped") none none none,
       gc_seen cfg.DEDUP_TTL_SECONDS t seen, none) := by
  simp [webhook, h]

/- ---------------------------------------------------------------
Claim theorems.
---------------------------------------------------------------- -/

/-- C1: if a first submission of URL `url` was processed at time `t1`
(first sighting, whatever the renderer and delivery oracles did, i.e.
whatever terminal outcome it reached), then a second submission within
TTL seconds returns status `dedup_skipped` and attempts no delivery,
for every behaviour of the renderer and delivery oracles of that call
(so render, challenge detection, extraction and notification cannot
influence it): the dedup mark was written before the fetch step. -/
theorem dedup_skips_second_submission_within_ttl
    (cfg : Config) (t1 t2 : Int) (url : String) (seen : Seen)
    (fetch1 fetch2 : FetchResult) (send1 send2 : SendResult)
    (hfirst : seenLookup (gc_seen cfg.DEDUP_TTL_SECONDS t1 seen) (dedup_key url) = none)
    (hwin : t2 - t1 ≤ cfg.DEDUP_TTL_SECONDS) :
    (webhook cfg t2 fetch2 send2 (webhook cfg t1 fetch1 send1 seen url).2.1 url).1
        = .body ("dedup_skipped") none none none
    ∧ (webhook cfg t2 fetch2 send2 (webhook cfg t1 fetch1 send1 seen url).2.1 url).2.2
        = none := by
  rw [webhook_miss cfg t1 fetch1 send1 seen url hfirst]
  have hkeep : gc_seen cfg.DEDUP_TTL_SECONDS t2
      (gc_seen cfg.DEDUP_TTL_SECONDS t1 seen ++ [(dedup_key url, t1)])
      = gc_seen cfg.DEDUP_TTL_SECONDS t2 (gc_seen cfg.DEDUP_TTL_SECONDS t1 seen)
        ++ [(dedup_key url, t1)] := by
    rw [gc_seen_append]
    have : gc_seen cfg.DEDUP_TTL_SECONDS t2 [(dedup_key url, t1)] = [(dedup_key url, t1)] := by
      simp [gc_seen]
      omega
    rw [this]
  have hnone : seenLookup
      (gc_seen cfg.DEDUP_TTL_SECONDS t2 (gc_seen cfg.DEDUP_TTL_SECONDS t1 seen))
      (dedup_key url) = none :=
    seenLookup_gc_none _ _ _ _ hfirst
  have hlook : seenLookup
      (gc_seen cfg.DEDUP_TTL_SECONDS t2
        (gc_seen cfg.DEDUP_TTL_SECONDS t1 seen ++ [(dedup_key url, t1)]))
      (dedup_key url) = some t1 := by
    rw [hkeep, seenLookup_append _ _ _ hnone]
    simp [seenLookup]
  rw [webhook_hit cfg t2 fetch2 send2 _ url t1 hlook]
  exact ⟨rfl, rfl⟩

/-- C1 witness: a concrete run — first submission times out at the
renderer at t=100, yet a resubmission at t=200 is deduplicated. -/
theorem dedup_skips_second_submission_within_ttl_witness :
    (webhook defaultConfig 200 (.ok ("") ("")) .ok
        (webhook defaultConfig 100 .timeout .ok [] ("http://a")).2.1 ("http://a")).1
      = .body ("dedup_skipped") none none none
    ∧ (webhook defaultConfig 200 (.ok ("") ("")) .ok
        (webhook defaultConfig 100 .timeout .ok [] ("http://a")).2.1 ("http://a")).2.2
      = none :=
  dedup_skips_second_submission_within_ttl defaultConfig 100 200 ("http://a") []
    .timeout (.ok ("") ("")) .ok .ok rfl (by decide)

/-- C2: the sweep keeps exactly the entries of age at most the TTL
(default 86400 s); and once every record of a URL in the store is older
than the TTL, resubmitting it behaves exactly as a first sighting: the
response equals the response the same request gets on an empty store,
and the URL is re-marked at the new time. -/
theorem gc_sweep_exact_and_expiry_resets
    (cfg : Config) (t2 : Int) (seen : Seen) (url : String)
    (fetch : FetchResult) (send : SendResult)
    (hexp : ∀ v : Int, (dedup_key url, v) ∈ seen → t2 - v > cfg.DEDUP_TTL_SECONDS) :
    defaultConfig.DEDUP_TTL_SECONDS = 86400
    ∧ (∀ (ttl t v : Int) (k : String) (s : Seen),
        (k, v) ∈ gc_seen ttl t s ↔ (k, v) ∈ s ∧ ¬(t - v > ttl))
    ∧ (webhook cfg t2 fetch send seen url).1 = (webhook cfg t2 fetch send [] url).1
    ∧ seenLookup (webhook cfg t2 fetch send seen url).2.1 (dedup_key url) = some t2 := by
  have hmiss : seenLookup (gc_seen cfg.DEDUP_TTL_SECONDS t2 seen) (dedup_key url) = none := by
    rw [seenLookup_eq_none]
    intro v hv
    rw [mem_gc_seen] at hv
    exact hv.2 (hexp v hv.1)
  have hmiss0 : seenLookup (gc_seen cfg.DEDUP_TTL_SECONDS t2 ([] : Seen)) (dedup_key url)
      = none := rfl
  refine ⟨rfl, fun ttl t v k s => mem_gc_seen ttl t s k v, ?_, ?_⟩
  · rw [webhook_miss cfg t2 fetch send seen url hmiss,
      webhook_miss cfg t2 fetch send [] url hmiss0]
  · rw [webhook_miss cfg t2 fetch send seen url hmiss]
    have : seenLookup (gc_seen cfg.DEDUP_TTL_SECONDS t2 seen ++ [(dedup_key url, t2)])
        (dedup_key url) = some t2 := by
      rw [seenLookup_append _ _ _ hmiss]
      simp [seenLookup]
    exact this

/-- C2 witness: with the default TTL, a URL first seen at t=0 is no
longer deduplicated at t=86401 and gets re-marked at 86401. -/
theorem gc_sweep_exact_and_expiry_resets_witness :
    defaultConfig.DEDUP_TTL_SECONDS = 86400
    ∧ (∀ (ttl t v : Int) (k : String) (s : Seen),
        (k, v) ∈ gc_seen ttl t s ↔ (k, v) ∈ s ∧ ¬(t - v > ttl))
    ∧ (webhook defaultConfig 86401 (.ok ("") ("")) .ok
        [(dedup_key ("http://a"), 0)] ("http://a")).1
      = (webhook defaultConfig 86401 (.ok ("") ("")) .ok [] ("http://a")).1
    ∧ seenLookup (webhook defaultConfig 86401 (.ok ("") ("")) .ok
        [(dedup_key ("http://a"), 0)] ("http://a")).2.1 (dedup_key ("http://a"))
      = some 86401 :=
  gc_sweep_exact_and_expiry_resets defaultConfig 86401 [(dedup_key ("http://a"), 0)]
    ("http://a") (.ok ("") ("")) .ok
    (by
      intro v hv
      simp only [List.mem_singleton, Prod.mk.injEq] at hv
      rw [hv.2]
      decide)

/-- C10: when the dedup gate observes an already-recorded fingerprint,
the response is `dedup_skipped`, the store is exactly what the sweep
left (the hit writes nothing), the stored first-observation timestamp
survives unrefreshed, and every key reads the same as before the hit. -/
theorem dedup_hit_preserves_store
    (cfg : Config) (t : Int) (fetch : FetchResult) (send : SendResult)
    (seen : Seen) (url : String) (v : Int)
    (hhit : seenLookup (gc_seen cfg.DEDUP_TTL_SECONDS t seen) (dedup_key url) = some v) :
    (webhook cfg t fetch send seen url).1 = .body ("dedup_skipped") none none none
    ∧ (webhook cfg t fetch send seen url).2.1 = gc_seen cfg.DEDUP_TTL_SECONDS t seen
    ∧ seenLookup (webhook cfg t fetch send seen url).2.1 (dedup_key url) = some v
    ∧ (∀ k2 : String, seenLookup (webhook cfg t fetch send seen url).2.1 k2
        = seenLookup (gc_seen cfg.DEDUP_TTL_SECONDS t seen) k2) := by
  rw [webhook_hit cfg t fetch send seen url v hhit]
  exact ⟨rfl, rfl, hhit, fun _ => rfl⟩

/-- C10 witness: a hit at t=6 on an entry recorded at t=5 keeps the
timestamp 5 and changes nothing. -/
theorem dedup_hit_preserves_store_witness :
    (webhook defaultConfig 6 .timeout .ok [(dedup_key ("http://a"), 5)] ("http://a")).1
      = .body ("dedup_skipped") none none none
    ∧ seenLookup
        (webhook defaultConfig 6 .timeout .ok [(dedup_key ("http://a"), 5)] ("http://a")).2.1
        (dedup_key ("http://a"))
      = some 5 :=
  have hhit : seenLookup (gc_seen defaultConfig.DEDUP_TTL_SECONDS 6
      [(dedup_key ("http://a"), 5)]) (dedup_key ("http://a")) = some 5 := by
    norm_num [gc_seen, seenLookup, defaultConfig]
  ⟨(dedup_hit_preserves_store defaultConfig 6 .timeout .ok
      [(dedup_key ("http://a"), 5)] ("http://a") 5 hhit).1,
   (dedup_hit_preserves_store defaultConfig 6 .timeout .ok
      [(dedup_key ("http://a"), 5)] ("http://a") 5 hhit).2.2.1⟩

/-- C3: with a configured (nonzero) minimum-land-area threshold, a
request whose extracted land area is strictly below the threshold ends
`filtered_out` with no delivery attempt, while a request whose land
area equals the threshold passes the gate, hands the formatted message
to delivery, and is `posted` when delivery succeeds: the threshold is
inclusive. -/
theorem min_land_filter_inclusive_threshold
    (cfg : Config) (t : Int) (seen : Seen) (url html text : String)
    (send : SendResult) (L : Nat)
    (hmiss : seenLookup (gc_seen cfg.DEDUP_TTL_SECONDS t seen) (dedup_key url) = none)
    (hch : looks_like_challenge html = false)
    (hland : (extract_fields text).land_m2 = some L)
    (hT : cfg.MIN_LAND_M2 ≠ 0) :
    (L < cfg.MIN_LAND_M2 →
        (webhook cfg t (.ok html text) send seen url).1
          = .body ("filtered_out") (some url) (some L) none
        ∧ (webhook cfg t (.ok html text) send seen url).2.2 = none)
    ∧ (L = cfg.MIN_LAND_M2 →
        (webhook cfg t (.ok html text) send seen url).2.2
          = some (format_message url (extract_fields text))
        ∧ (send = .ok →
            (webhook cfg t (.ok html text) send seen url).1
              = .body ("posted") (some url) (some L)
                  (some (extract_fields text)))) := by
  rw [webhook_miss cfg t _ send seen url hmiss]
  constructor
  · intro hlt
    constructor <;> simp [processFetched, hch, hland, hT, hlt]
  · intro heq
    have hnlt : ¬(cfg.MIN_LAND_M2 ≠ 0 ∧ L < cfg.MIN_LAND_M2) := by
      intro hc
      omega
    constructor
    · cases send with
      | ok => simp [processFetched, hch, hland, hnlt]
      | fail e => simp [processFetched, hch, hland, hnlt]
    · intro hs
      subst hs
      simp [processFetched, hch, hland, hnlt]

/-- C3 witness: threshold 300; extracted land 250 is filtered out, and
extracted land 300 is posted. -/
theorem min_land_filter_inclusive_threshold_witness :
    ((webhook { MIN_LAND_M2 := 300, DEDUP_TTL_SECONDS := 86400 } 0
        (.ok ("") ("Plot area: 250")) .ok [] ("http://a")).1
      = .body ("filtered_out") (some ("http://a")) (some 250) none)
    ∧ ((webhook { MIN_LAND_M2 := 300, DEDUP_TTL_SECONDS := 86400 } 0
        (.ok ("") ("Plot area: 300")) .ok [] ("http://a")).1
      = .body ("posted") (some ("http://a")) (some 300)
          (some (extract_fields ("Plot area: 300")))) :=
  ⟨((min_land_filter_inclusive_threshold
      { MIN_LAND_M2 := 300, DEDUP_TTL_SECONDS := 86400 } 0 [] ("http://a") ("")
      ("Plot area: 250") .ok 250 rfl rfl (by decide) (by decide)).1 (by decide)).1,
   ((min_land_filter_inclusive_threshold
      { MIN_LAND_M2 := 300, DEDUP_TTL_SECONDS := 86400 } 0 [] ("http://a") ("")
      ("Plot area: 300") .ok 300 rfl rfl (by decide) (by decide)).2 rfl).2 rfl⟩

/-- C8: the response taxonomy is total — every body carries one of the
four success statuses, every failure is one of the codes 504, 502, 403
— and each failure is mapped distinctly: renderer timeout to 504, any
other renderer fault to 502, a detected challenge to 403, and a
delivery failure that is reached to 502; no error is swallowed. -/
theorem webhook_outcome_taxonomy
    (cfg : Config) (t : Int) (fetch : FetchResult) (send : SendResult)
    (seen : Seen) (url : String) :
    (match (webhook cfg t fetch send seen url).1 with
      | .body s _ _ _ =>
          s = ("dedup_skipped") ∨ s = ("no_land_field")
            ∨ s = ("filtered_out") ∨ s = ("posted")
      | .httpError c _ => c = 504 ∨ c = 502 ∨ c = 403)
    ∧ (seenLookup (gc_seen cfg.DEDUP_TTL_SECONDS t seen) (dedup_key url) = none →
        (fetch = .timeout →
            (webhook cfg t fetch send seen url).1
              = .httpError 504 ("Timeout loading page"))
        ∧ (∀ e, fetch = .error e →
            (webhook cfg t fetch send seen url).1
              = .httpError 502 (("Browser error: ") ++ e))
        ∧ (∀ html text, fetch = .ok html text → looks_like_challenge html = true →
            (webhook cfg t fetch send seen url).1
              = .httpError 403 ("Blocked by challenge/CAPTCHA"))
        ∧ (∀ html text L e, fetch = .ok html text → looks_like_challenge html = false →
            (extract_fields text).land_m2 = some L →
            ¬(cfg.MIN_LAND_M2 ≠ 0 ∧ L < cfg.MIN_LAND_M2) →
            send = .fail e →
            (webhook cfg t fetch send seen url).1
              = .httpError 502 (("Telegram send failed: ") ++ e))) := by
  constructor
  · rcases hopt : seenLookup (gc_seen cfg.DEDUP_TTL_SECONDS t seen) (dedup_key url)
      with _ | v
    · rw [webhook_miss cfg t fetch send seen url hopt]
      cases fetch with
      | timeout => simp [processFetched]
      | error e => simp [processFetched]
      | ok html text =>
        by_cases hch : looks_like_challenge html
        · simp [processFetched, hch]
        · rcases hl : (extract_fields text).land_m2 with _ | L
          · simp [processFetched, hch, hl]
          · by_cases hf : cfg.MIN_LAND_M2 ≠ 0 ∧ L < cfg.MIN_LAND_M2
            · simp [processFetched, hch, hl, hf]
            · cases send with
              | ok => simp [processFetched, hch, hl, hf]
              | fail e => simp [processFetched, hch, hl, hf]
    · rw [webhook_hit cfg t fetch send seen url v hopt]
      simp
  · intro hmiss
    rw [webhook_miss cfg t fetch send seen url hmiss]
    refine ⟨?_, ?_, ?_, ?_⟩
    · intro hf
      subst hf
      rfl
    · intro e hf
      subst hf
      rfl
    · intro html text hf hch
      subst hf
      simp [processFetched, hch]
    · intro html text L e hf hch hl hnf hs
      subst hf
      subst hs
      simp [processFetched, hch, hl, hnf]

/-- C8 witness: on a fresh store a renderer timeout is surfaced as 504. -/
theorem webhook_outcome_taxonomy_witness :
    (webhook defaultConfig 0 .timeout .ok [] ("http://a")).1
      = .httpError 504 ("Timeout loading page") :=
  ((webhook_outcome_taxonomy defaultConfig 0 .timeout .ok [] ("http://a")).2 rfl).1 rfl

/- ---------------------------------------------------------------
Formatting lemmas.
---------------------------------------------------------------- -/

theorem strData_append (a b : String) : (a ++ b).data = a.data ++ b.data := by
  cases a
  cases b
  rfl

/-- The per-field lines of the message, in the fixed source order. -/
def fieldLines (fields : ExtractedFields) : List String :=
  (match fields.land_m2 with
    | some land => [("Terrain: ") ++ toString land ++ (" m²")]
    | none => [])
  ++ (match fields.price_eur with
    | some price => [("Prix: ") ++ toString price ++ (" EUR")]
    | none => [])
  ++ (match fields.area_m2 with
    | some area => [("Surface: ") ++ toString area ++ (" m²")]
    | none => [])

theorem format_message_eq (u : String) (fl : ExtractedFields) :
    format_message u fl
      = joinNL ((("Nouvelle annonce qualifiee") :: fieldLines fl) ++ [u]) := by
  obtain ⟨land, price, area⟩ := fl
  cases land <;> cases price <;> cases area <;> simp [format_message, fieldLines]

theorem joinNL_cons_cons (a b : String) (l : List String) :
    joinNL (a :: b :: l) = a ++ ("\n") ++ joinNL (b :: l) := rfl

theorem joinNL_head (b : String) (l : List String) :
    ∃ q : List Char, (joinNL (b :: l)).data = b.data ++ q := by
  cases l with
  | nil => exact ⟨[], by simp [joinNL]⟩
  | cons c cs =>
    exact ⟨("\n").data ++ (joinNL (c :: cs)).data,
      by rw [joinNL_cons_cons, strData_append, strData_append, List.append_assoc]⟩

theorem joinNL_last (l : List String) (u : String) :
    ∃ p : List Char, (joinNL (l ++ [u])).data = p ++ u.data := by
  induction l with
  | nil => exact ⟨[], by simp [joinNL]⟩
  | cons a rest ih =>
    obtain ⟨p, hp⟩ := ih
    cases rest with
    | nil =>
      exact ⟨a.data ++ ("\n").data,
        by
          show (joinNL [a, u]).data = a.data ++ ("\n").data ++ u.data
          rw [joinNL_cons_cons, strData_append, strData_append]
          simp [joinNL]⟩
    | cons b bs =>
      refine ⟨a.data ++ ("\n").data ++ p, ?_⟩
      show (joinNL (a :: ((b :: bs) ++ [u]))).data = a.data ++ ("\n").data ++ p ++ u.data
      rw [List.cons_append, joinNL_cons_cons, strData_append, strData_append]
      rw [List.cons_append] at hp
      rw [hp]
      simp [List.append_assoc]

/- ---------------------------------------------------------------
Extraction and formatting claim theorems.
---------------------------------------------------------------- -/

/-- C4: the spec examples of the extractor — a comma-separated plot
area, a Greek label, and a digit-free text — together with the
normalization law of `clean_int`: every non-digit character is stripped
before parsing, and a string with no digits after stripping yields
absence (none, never zero). -/
theorem extract_examples_and_digit_normalization :
    (extract_fields ("Plot area: 2,640 m²")).land_m2 = some 2640
    ∧ (extract_fields ("Εμβαδόν οικοπέδου: 500")).land_m2 = some 500
    ∧ (extract_fields ("no numbers here")).land_m2 = none
    ∧ (∀ s : String, s.data.filter Char.isDigit = [] → clean_int s = none)
    ∧ (∀ s : String, s.data ≠ [] → s.data.filter Char.isDigit ≠ [] →
        clean_int s = some (natOfDigits (s.data.filter Char.isDigit))) := by
  refine ⟨by decide, by decide, by decide, ?_, ?_⟩
  · intro s h
    by_cases he : s.data = [] <;> simp [clean_int, he, h]
  · intro s h1 h2
    simp [clean_int, h1, h2]

/-- C4 witness: concrete instances of the normalization law, including
separators written as commas and spaces. -/
theorem extract_examples_and_digit_normalization_witness :
    clean_int ("no digits") = none
    ∧ clean_int ("a1,2 b3") = some (natOfDigits ((("a1,2 b3").data).filter Char.isDigit))
    ∧ (extract_fields ("no numbers here")).land_m2 = none :=
  ⟨extract_examples_and_digit_normalization.2.2.2.1 ("no digits") (by decide),
   extract_examples_and_digit_normalization.2.2.2.2 ("a1,2 b3") (by decide) (by decide),
   extract_examples_and_digit_normalization.2.2.1⟩

/-- C5: the number patterns capture one to three digits plus
separator-delimited groups of exactly three, so an unseparated run of
four or more digits is truncated to its first three: a plot area
written `2640` extracts as 264, a price written `350000` as 350, and
appending any tenth digit to `264` still extracts 264. -/
theorem unseparated_digit_run_truncated_to_three :
    (extract_fields ("Plot area: 2640")).land_m2 = some 264
    ∧ (extract_fields ("€ 350000")).price_eur = some 350
    ∧ (∀ d : Fin 10,
        (extract_fields
            (String.mk (("Plot area: 264").data ++ [Char.ofNat (48 + d.val)]))).land_m2
          = some 264) := by
  exact ⟨by decide, by decide, by decide⟩

/-- C6: price and living area are extracted simultaneously from the
same text, and the three fields are computed by three independent
searches, so one extraction never blocks or alters another. -/
theorem independent_field_extraction :
    (extract_fields ("€ 350,000 ... 120 m²")).price_eur = some 350000
    ∧ (extract_fields ("€ 350,000 ... 120 m²")).area_m2 = some 120
    ∧ (∀ text : String,
        extract_fields text
          = { land_m2 := landExtract text, price_eur := priceExtract text,
              area_m2 := areaExtract text }) := by
  exact ⟨by decide, by decide, fun _ => rfl⟩

/-- C7: `looks_like_challenge` returns true exactly when the
lower-cased markup contains one of the fixed markers as a substring;
in particular a CAPTCHA widget reference is classified as a challenge
and a marker-free page is not. -/
theorem challenge_detection_iff_marker :
    (∀ html : String,
        looks_like_challenge html = true
          ↔ ∃ s ∈ challenge_markers, subList s.data (strLower html).data = true)
    ∧ looks_like_challenge ("<div class=\"g-recaptcha\" data-sitekey=\"x\"></div>") = true
    ∧ looks_like_challenge ("<html><body>Plot area: 500</body></html>") = false := by
  refine ⟨?_, by decide, by decide⟩
  intro html
  simp [looks_like_challenge, List.any_eq_true]

/-- C9: the formatted message is the fixed header, one line per present
field in the order land, price, living area (a line is omitted exactly
when its field is absent), then the URL as the final line; a message
for land = 500 contains the text `Terrain: 500 m²` and ends with the
URL, and a posted outcome with land 500 carries exactly that message. -/
theorem format_message_layout_and_notified_content :
    (∀ (u : String) (fl : ExtractedFields),
        format_message u fl
          = joinNL ((("Nouvelle annonce qualifiee") :: fieldLines fl) ++ [u]))
    ∧ (∀ (u : String) (fl : ExtractedFields), fl.land_m2 = some 500 →
        (∃ p q : List Char,
            (format_message u fl).data = p ++ ("Terrain: 500 m²").data ++ q)
        ∧ (∃ p : List Char, (format_message u fl).data = p ++ u.data))
    ∧ (∀ (cfg : Config) (t : Int) (seen : Seen) (url html text : String),
        seenLookup (gc_seen cfg.DEDUP_TTL_SECONDS t seen) (dedup_key url) = none →
        looks_like_challenge html = false →
        (extract_fields text).land_m2 = some 500 →
        cfg.MIN_LAND_M2 = 0 →
        (webhook cfg t (.ok html text) .ok seen url).1
          = .body ("posted") (some url) (some 500) (some (extract_fields text))
        ∧ (webhook cfg t (.ok html text) .ok seen url).2.2
          = some (format_message url (extract_fields text))) := by
  have hterr : ("Terrain: ") ++ toString (500 : Nat) ++ (" m²") = ("Terrain: 500 m²") := by
    decide
  refine ⟨format_message_eq, ?_, ?_⟩
  · intro u fl h500
    constructor
    · obtain ⟨land, price, area⟩ := fl
      simp only at h500
      subst h500
      have hfl : fieldLines ⟨some 500, price, area⟩
          = ("Terrain: 500 m²")
            :: ((match price with
                  | some p2 => [("Prix: ") ++ toString p2 ++ (" EUR")]
                  | none => [])
                ++ (match area with
                  | some a2 => [("Surface: ") ++ toString a2 ++ (" m²")]
                  | none => [])) := by
        simp [fieldLines, hterr]
      rw [format_message_eq, hfl]
      obtain ⟨q, hq⟩ := joinNL_head ("Terrain: 500 m²") _
      refine ⟨("Nouvelle annonce qualifiee").data ++ ("\n").data, q, ?_⟩
      rw [List.cons_append, List.cons_append, joinNL_cons_cons,
        strData_append, strData_append]
      rw [List.cons_append] at hq
      rw [hq]
      simp [List.append_assoc]
    · rw [format_message_eq]
      exact joinNL_last _ u
  · intro cfg t seen url html text hmiss hch hland hmin
    rw [webhook_miss cfg t _ _ seen url hmiss]
    constructor <;> simp [processFetched, hch, hland, hmin]

/-- C9 witness: a concrete posted run with land 500 carries the
formatted message. -/
theorem format_message_layout_and_notified_content_witness :
    (webhook defaultConfig 0 (.ok ("") ("Plot area: 500")) .ok [] ("http://a")).1
      = .body ("posted") (some ("http://a")) (some 500)
          (some (extract_fields ("Plot area: 500")))
    ∧ (webhook defaultConfig 0 (.ok ("") ("Plot area: 500")) .ok [] ("http://a")).2.2
      = some (format_message ("http://a") (extract_fields ("Plot area: 500"))) :=
  format_message_layout_and_notified_content.2.2 defaultConfig 0 [] ("http://a") ("")
    ("Plot area: 500") rfl rfl (by decide) rfl

end Annonces
